import Mathlib

/-!
Shallow embedding of the Kalm message-bus core (the `Client` class and the
adapter registry), translated from the JavaScript sources.  The `Channel`
class, the encoder registry and the `defaults` module are not among the
sources; they are modelled from the specification, and every definition doing
so says which piece is missing in its doc comment.

Modelling conventions:
- JavaScript channel names may be any value; `name + ''` stringification and
  bracket-lookup coercion are modelled by `JSVal` and `jsToString`.
- Exceptions (`TypeError` from calling a method on `undefined` after a failed
  registry resolution) become `Except String`.
- Effects on external collaborators are recorded as traces in the client
  state: `sent` records each `(channelName, packets)` frame handed to
  `encode` and then to the adapter's `send`; `disconnects` counts the
  adapter `disconnect` invocations; `events` records emitted event names.
- The client id (random hex) and debug logging are omitted: no observable
  behaviour of the modelled operations depends on them.
-/

namespace Kalm

/-- A JavaScript value used as a channel name: either a string or an
(integral) number.  Other JS types behave like further string-coercible
cases and are not needed by the claims. -/
inductive JSVal where
  | str : String → JSVal
  | num : Int → JSVal
deriving DecidableEq, Repr

/-- JS string coercion, as performed by `name + ''` in `subscribe` and
`unsubscribe`, and by bracket property access `this.channels[name]`. -/
def jsToString : JSVal → String
  | .str s => s
  | .num n => toString n

/-- Effective bundler options.  The spec (§6) names `every` (the batching
interval) as the recognized bundler option. -/
structure BundlerOptions where
  every : Nat
deriving DecidableEq, Repr

/-- A possibly-absent set of bundler option keys, as supplied by a caller
(JS objects with optional keys). -/
structure BundlerOverride where
  every : Option Nat
deriving DecidableEq, Repr

/-- `Object.assign({}, base, o)`: keys present in `o` override `base`. -/
def mergeBundler (base : BundlerOptions) (o : BundlerOverride) : BundlerOptions :=
  { every := o.every.getD base.every }

/-- JS `x || d` for an optional string option: `undefined` and the empty
string (falsy) fall back to the default. -/
def orStr (o : Option String) (d : String) : String :=
  match o with
  | some s => if s = "" then d else s
  | none => d

/-- JS `x || d` for an optional numeric option: `undefined` and `0` (falsy)
fall back to the default. -/
def orNat (o : Option Nat) (d : Nat) : Nat :=
  match o with
  | some n => if n = 0 then d else n
  | none => d

/-- JS `x || d` for an optional boolean option. -/
def orBool (o : Option Bool) (d : Bool) : Bool :=
  match o with
  | some b => b || d
  | none => d

/-- An encoder, per the contract of §4.4: `encode(tuple) -> bytes`,
`decode(bytes) -> tuple | empty-on-malformed`.  Concrete codecs are external
collaborators; `none` models a falsy or empty decode result. -/
structure Encoder (α : Type) where
  encode : JSVal × List α → List Nat
  decode : List Nat → Option (JSVal × List α)

/-- Modelled from the spec: `src/encoders/index.js` is not among the sources.
Per §9 the encoder registry resolves a codec by string name with a silent
`undefined` (here `none`) on a miss, mirroring `src/adapters/index.js`.
The registered list is a parameter since `register` can extend it. -/
def encodersResolve {α : Type} (encs : List (String × Encoder α)) (name : String) :
    Option (Encoder α) :=
  encs.lookup name

/-- The adapter names initially registered in `src/adapters/index.js`
(`list = { ipc, tcp, udp }`). -/
def initialAdapters : List String := ["ipc", "tcp", "udp"]

/-- `resolve` from `src/adapters/index.js`: returns the adapter when the
name is registered, `undefined` (here `none`) otherwise.  Adapter objects
are opaque external collaborators, so resolution yields `Unit`; the list of
registered names is a parameter since `register` can extend it. -/
def adaptersResolve (adps : List String) (name : String) : Option Unit :=
  if name ∈ adps then some () else none

/-- Modelled from the spec: the adapter contract's
`createSocket(client, existingSocket?) -> Socket` (§4.3).  An existing
socket is adopted, otherwise a fresh socket token is produced; the socket's
internals are external to the core. -/
def adapterCreateSocket (socket : Option Nat) : Nat :=
  socket.getD 1

/-- Modelled from the spec: the `Channel` class (`src/Channel.js`) is not
among the sources.  Per §3 a channel has a string name, effective options,
an ordered pending-packet queue, a handler collection and bundler timer
state (idle/armed).  `received` is a trace of packet batches handed to this
channel's dispatch (`handleData`); handlers are identified by tokens since
callbacks are external. -/
structure Channel (α : Type) where
  name : String
  options : BundlerOptions
  packets : List α
  handlers : List Nat
  timer : Bool
  received : List (List α)
deriving DecidableEq, Repr

/-- Modelled from the spec: `new Channel(name, options, client)` starts with
an empty queue, no handlers and an idle bundler. -/
def Channel.make {α : Type} (name : String) (options : BundlerOptions) : Channel α :=
  { name := name, options := options, packets := [], handlers := [],
    timer := false, received := [] }

/-- Modelled from the spec: `addHandler(fn)` attaches a handler (§4.2). -/
def Channel.addHandler {α : Type} (ch : Channel α) (h : Nat) : Channel α :=
  { ch with handlers := ch.handlers ++ [h] }

/-- Modelled from the spec: `removeHandler(fn)` removes a handler (§4.2). -/
def Channel.removeHandler {α : Type} (ch : Channel α) (h : Nat) : Channel α :=
  { ch with handlers := ch.handlers.erase h }

/-- Modelled from the spec: `startBundler()` arms the channel's timer
(§4.2). -/
def Channel.startBundler {α : Type} (ch : Channel α) : Channel α :=
  { ch with timer := true }

/-- Modelled from the spec: `resetBundler()` cancels the armed timer without
flushing; queue contents are retained (§4.2). -/
def Channel.resetBundler {α : Type} (ch : Channel α) : Channel α :=
  { ch with timer := false }

/-- Modelled from the spec: `Channel.send(payload)` appends to the tail of
the pending queue (FIFO) and arms the bundler if not already armed (§4.2). -/
def Channel.send {α : Type} (ch : Channel α) (payload : α) : Channel α :=
  { ch with packets := ch.packets ++ [payload], timer := true }

/-- Modelled from the spec: `Channel.sendOnce(payload)` replaces the entire
pending queue with the single value `payload` and arms the bundler if not
already armed (§4.2, trump semantics). -/
def Channel.sendOnce {α : Type} (ch : Channel α) (payload : α) : Channel α :=
  { ch with packets := [payload], timer := true }

/-- Modelled from the spec: `handleData(packets)` delivers every element of
`packets`, in order, to every registered handler (§4.2).  The callbacks are
external; the batch handed to dispatch is recorded in the trace. -/
def Channel.handleData {α : Type} (ch : Channel α) (packets : List α) : Channel α :=
  { ch with received := ch.received ++ [packets] }

/-- The effective client options assembled by the `Client` constructor. -/
structure Options where
  hostname : String
  port : Nat
  adapter : String
  encoder : String
  bundler : BundlerOptions
  stats : Bool
  socketTimeout : Nat
deriving DecidableEq, Repr

/-- Modelled from the spec: `src/defaults.js` is not among the sources.  §6
lists the recognized option keys; the concrete default values are immaterial
to the claims (every theorem that depends on an option supplies it
explicitly). -/
def defaults : Options :=
  { hostname := "0.0.0.0", port := 3000, adapter := "ipc", encoder := "json",
    bundler := { every := 16 }, stats := false, socketTimeout := 300000 }

/-- The `options` argument of the `Client` constructor: a JS object whose
keys may each be absent.  `channels` is a name-to-handler map (iterated with
`for..in`, whose keys are strings). -/
structure ConstructorOptions where
  hostname : Option String
  port : Option Nat
  adapter : Option String
  encoder : Option String
  bundler : Option BundlerOverride
  stats : Option Bool
  socketTimeout : Option Nat
  tick : Option Nat
  channels : List (String × Nat)
deriving DecidableEq, Repr

/-- The `Client` state (from `Client.js`): merged options, the name-to-channel
map (an association list: JS objects preserve insertion order), the
server-spawned flag, the optional tick reference and the current socket.
`sent`, `disconnects` and `events` are traces of the effects handed to the
external collaborators (see the module doc comment). -/
structure Client (α : Type) where
  options : Options
  channels : List (String × Channel α)
  fromServer : Bool
  tick : Option Nat
  socket : Option Nat
  sent : List (JSVal × List α)
  disconnects : Nat
  events : List String
deriving DecidableEq, Repr

/-- Applies `f` to the channel stored under key `n` (JS
`this.channels[n] = ...` mutation in place). -/
def Client.updateChannel {α : Type} (c : Client α) (n : String)
    (f : Channel α → Channel α) : Client α :=
  { c with channels := c.channels.map fun p => (p.1, if p.1 = n then f p.2 else p.2) }

/-- `Client.subscribe(name, handler, options)`: stringifies the name,
creates the channel if absent (merging the per-channel options over the
client's bundler defaults), then attaches the handler if one was given. -/
def Client.subscribe {α : Type} (c : Client α) (name : JSVal) (handler : Option Nat)
    (options : BundlerOverride) : Client α :=
  let n := jsToString name
  let c1 :=
    if (c.channels.lookup n).isSome then c
    else { c with channels :=
      c.channels ++ [(n, Channel.make n (mergeBundler c.options.bundler options))] }
  match handler with
  | some h => c1.updateChannel n (fun ch => ch.addHandler h)
  | none => c1

/-- `Client.unsubscribe(name, handler)`: stringifies the name; returns the
client unchanged when no such channel exists, otherwise removes the handler
from it. -/
def Client.unsubscribe {α : Type} (c : Client α) (name : JSVal) (handler : Nat) :
    Client α :=
  let n := jsToString name
  if (c.channels.lookup n).isSome then c.updateChannel n (fun ch => ch.removeHandler handler)
  else c

/-- `Client.createSocket(socket)`: resolves the adapter and calls its
`createSocket`; resolution failure makes the method call on `undefined`
throw a `TypeError`. -/
def Client.createSocket {α : Type} (adps : List String) (c : Client α)
    (socket : Option Nat) : Except String Nat :=
  match adaptersResolve adps c.options.adapter with
  | some _ => .ok (adapterCreateSocket socket)
  | none => .error "TypeError: cannot call createSocket of undefined"

/-- `Client.use(socket)`: when a socket is already attached, disconnects it
via the current adapter first; then creates/adopts a socket via
`createSocket`. -/
def Client.use {α : Type} (adps : List String) (c : Client α) (socket : Option Nat) :
    Except String (Client α) :=
  match c.socket with
  | some _ =>
    match adaptersResolve adps c.options.adapter with
    | none => .error "TypeError: cannot call disconnect of undefined"
    | some _ =>
      let c1 := { c with disconnects := c.disconnects + 1 }
      (c1.createSocket adps socket).map fun s => { c1 with socket := some s }
  | none =>
    (c.createSocket adps socket).map fun s => { c with socket := some s }

/-- The `Client` constructor: merges the options over the defaults, starts
with no channels, populates channels from `options.channels` (via
`subscribe`), then sets the socket with `use(socket)`. -/
def Client.construct {α : Type} (adps : List String) (options : ConstructorOptions)
    (socket : Option Nat) : Except String (Client α) :=
  let opts : Options :=
    { hostname := orStr options.hostname defaults.hostname,
      port := orNat options.port defaults.port,
      adapter := orStr options.adapter defaults.adapter,
      encoder := orStr options.encoder defaults.encoder,
      bundler := mergeBundler defaults.bundler (options.bundler.getD { every := none }),
      stats := orBool options.stats defaults.stats,
      socketTimeout := orNat options.socketTimeout defaults.socketTimeout }
  let c0 : Client α :=
    { options := opts, channels := [], fromServer := options.tick.isSome,
      tick := options.tick, socket := none, sent := [], disconnects := 0, events := [] }
  let c1 := options.channels.foldl
    (fun c p => c.subscribe (.str p.1) (some p.2) { every := none }) c0
  c1.use adps socket

/-- `Client.handleError(err)`: emits the error signal; never throws. -/
def Client.handleError {α : Type} (c : Client α) : Client α :=
  { c with events := c.events ++ ["error"] }

/-- `Client.handleConnect(socket)`: emits the connect-class signals, then
(re)starts the bundler of every channel whose pending queue is non-empty
(`if (this.channels[channel].packets.length) startBundler()`). -/
def Client.handleConnect {α : Type} (c : Client α) (_socket : Nat) : Client α :=
  { c with
    events := c.events ++ ["connect", "connection"],
    channels := c.channels.map fun p =>
      (p.1, if p.2.packets.isEmpty then p.2 else p.2.startBundler) }

/-- `Client.handleDisconnect()`: emits the disconnect-class signals and
clears the socket reference. -/
def Client.handleDisconnect {α : Type} (c : Client α) : Client α :=
  { c with events := c.events ++ ["disconnect", "disconnection"], socket := none }

/-- `Client._emit(channel, packets)`: encodes `[channel, packets]` with the
resolved encoder and hands the bytes to the resolved adapter's `send`.
Either resolution failing throws a `TypeError`; otherwise the frame is
recorded in the `sent` trace.  Note the channel name reaches the frame
uncoerced. -/
def Client._emit {α : Type} (encs : List (String × Encoder α)) (adps : List String)
    (c : Client α) (channel : JSVal) (packets : List α) : Except String (Client α) :=
  match encodersResolve encs c.options.encoder with
  | none => .error "TypeError: cannot call encode of undefined"
  | some _ =>
    match adaptersResolve adps c.options.adapter with
    | none => .error "TypeError: cannot call send of undefined"
    | some _ => .ok { c with sent := c.sent ++ [(channel, packets)] }

/-- `Client.send(name, payload)`: subscribes (creating the channel if
needed) and appends the payload to that channel's queue. -/
def Client.send {α : Type} (c : Client α) (name : JSVal) (payload : α) : Client α :=
  let c1 := c.subscribe name none { every := none }
  c1.updateChannel (jsToString name) (fun ch => ch.send payload)

/-- `Client.sendOnce(name, payload)`: subscribes (creating the channel if
needed) and trumps that channel's queue with the payload. -/
def Client.sendOnce {α : Type} (c : Client α) (name : JSVal) (payload : α) : Client α :=
  let c1 := c.subscribe name none { every := none }
  c1.updateChannel (jsToString name) (fun ch => ch.sendOnce payload)

/-- `Client.sendNow(name, payload)`: subscribes (creating the channel if
needed) and hands the single-packet batch `[payload]` directly to `_emit`,
bypassing the channel queue. -/
def Client.sendNow {α : Type} (encs : List (String × Encoder α)) (adps : List String)
    (c : Client α) (name : JSVal) (payload : α) : Except String (Client α) :=
  let c1 := c.subscribe name none { every := none }
  c1._emit encs adps name [payload]

/-- `Client.handleRequest(evt)`: decodes via the resolved encoder (a failed
resolution throws); a falsy/empty decode result is dropped; otherwise the
packets are forwarded to the named channel's dispatch when such a channel
exists (`hasOwnProperty` coerces the decoded name to a string) and dropped
when it does not. -/
def Client.handleRequest {α : Type} (encs : List (String × Encoder α)) (c : Client α)
    (evt : List Nat) : Except String (Client α) :=
  match encodersResolve encs c.options.encoder with
  | none => .error "TypeError: cannot call decode of undefined"
  | some enc =>
    match enc.decode evt with
    | none => .ok c
    | some (chName, packets) =>
      let n := jsToString chName
      if (c.channels.lookup n).isSome then
        .ok (c.updateChannel n (fun ch => ch.handleData packets))
      else .ok c

/-- `Client.destroy()`: disconnects via the adapter (a failed resolution
throws), clears the socket reference and resets every channel's bundler. -/
def Client.destroy {α : Type} (adps : List String) (c : Client α) :
    Except String (Client α) :=
  match adaptersResolve adps c.options.adapter with
  | none => .error "TypeError: cannot call disconnect of undefined"
  | some _ =>
    .ok { c with
      disconnects := c.disconnects + 1,
      socket := none,
      channels := c.channels.map fun p => (p.1, p.2.resetBundler) }

/-- Modelled from the spec: the bundler-timer expiry of `src/Channel.js`
(§4.2 `startBundler`): when the timer of the channel registered under `n` is
armed, a non-empty queue is handed to the client as one batch via `_emit`
and then cleared, with the timer returning to idle; an armed timer over an
empty queue simply expires.  An idle timer never fires. -/
def Client.flushChannel {α : Type} (encs : List (String × Encoder α)) (adps : List String)
    (c : Client α) (n : String) : Except String (Client α) :=
  match c.channels.lookup n with
  | none => .ok c
  | some ch =>
    if ch.timer then
      if ch.packets.isEmpty then
        .ok (c.updateChannel n (fun ch2 => ch2.resetBundler))
      else
        (c._emit encs adps (.str ch.name) ch.packets).map fun c2 =>
          c2.updateChannel n (fun ch2 => { ch2 with packets := [], timer := false })
    else .ok c

/-! ### Association-list lemmas -/

/-- Lookup distributes over append, preferring the left list. -/
theorem lookup_append {β : Type} (l₁ l₂ : List (String × β)) (m : String) :
    (l₁ ++ l₂).lookup m = (l₁.lookup m).or (l₂.lookup m) := by
  induction l₁ with
  | nil => simp [List.lookup]
  | cons hd tl ih =>
    obtain ⟨k, v⟩ := hd
    by_cases hk : m = k
    · subst hk; simp [List.lookup]
    · simp [List.lookup, beq_false_of_ne hk, ih]

/-- Lookup after a key-preserving map is the map of the lookup. -/
theorem lookup_map_keyed {β : Type} (l : List (String × β)) (f : String → β → β)
    (m : String) :
    (l.map fun p => (p.1, f p.1 p.2)).lookup m = (l.lookup m).map (f m) := by
  induction l with
  | nil => rfl
  | cons hd tl ih =>
    obtain ⟨k, v⟩ := hd
    by_cases hk : m = k
    · subst hk; simp [List.lookup]
    · simp [List.lookup, beq_false_of_ne hk, ih]

/-! ### Basic facts about the Client operations -/

/-- `updateChannel` rewrites only the channel stored under the given key. -/
theorem lookup_updateChannel {α : Type} (c : Client α) (n : String)
    (f : Channel α → Channel α) (m : String) :
    (c.updateChannel n f).channels.lookup m
      = (c.channels.lookup m).map (fun ch => if m = n then f ch else ch) := by
  unfold Client.updateChannel
  exact lookup_map_keyed c.channels (fun k v => if k = n then f v else v) m

/-- `updateChannel` preserves the channel keys. -/
theorem updateChannel_keys {α : Type} (c : Client α) (n : String)
    (f : Channel α → Channel α) :
    (c.updateChannel n f).channels.map Prod.fst = c.channels.map Prod.fst := by
  unfold Client.updateChannel
  simp

/-- After a handler-less `subscribe`, the named channel is the existing one
when present and a freshly created one otherwise. -/
theorem subscribe_none_lookup {α : Type} (c : Client α) (name : JSVal)
    (o : BundlerOverride) :
    (c.subscribe name none o).channels.lookup (jsToString name)
      = some ((c.channels.lookup (jsToString name)).getD
          (Channel.make (jsToString name) (mergeBundler c.options.bundler o))) := by
  unfold Client.subscribe
  by_cases hx : (c.channels.lookup (jsToString name)).isSome
  · obtain ⟨ch, hch⟩ := Option.isSome_iff_exists.mp hx
    simp [hx, hch]
  · have hnone : c.channels.lookup (jsToString name) = none :=
      Option.not_isSome_iff_eq_none.mp hx
    simp [hx, lookup_append, hnone, List.lookup]

/-- A handler-less `subscribe` to an existing channel changes nothing. -/
theorem subscribe_existing_none {α : Type} (c : Client α) (name : JSVal)
    (o : BundlerOverride) (h : (c.channels.lookup (jsToString name)).isSome) :
    c.subscribe name none o = c := by
  unfold Client.subscribe
  simp [h]

/-- `subscribe` only touches the channel map. -/
theorem subscribe_only_channels {α : Type} (c : Client α) (name : JSVal)
    (handler : Option Nat) (o : BundlerOverride) :
    c.subscribe name handler o
      = { c with channels := (c.subscribe name handler o).channels } := by
  unfold Client.subscribe Client.updateChannel
  cases handler <;> by_cases hx : (c.channels.lookup (jsToString name)).isSome <;> simp [hx]

/-- `send` only touches the channel map. -/
theorem send_only_channels {α : Type} (c : Client α) (name : JSVal) (p : α) :
    c.send name p = { c with channels := (c.send name p).channels } := by
  unfold Client.send
  rw [subscribe_only_channels]
  rfl

/-- `sendOnce` only touches the channel map. -/
theorem sendOnce_only_channels {α : Type} (c : Client α) (name : JSVal) (p : α) :
    c.sendOnce name p = { c with channels := (c.sendOnce name p).channels } := by
  unfold Client.sendOnce
  rw [subscribe_only_channels]
  rfl

/-- A `subscribe` with a handler on an existing channel only attaches the
handler to it. -/
theorem subscribe_existing_some {α : Type} (c : Client α) (name : JSVal) (hb : Nat)
    (o : BundlerOverride) (h : (c.channels.lookup (jsToString name)).isSome) :
    c.subscribe name (some hb) o
      = c.updateChannel (jsToString name) (fun ch => ch.addHandler hb) := by
  unfold Client.subscribe
  simp [h]

/-- What `handleConnect` does to each channel, seen through lookup. -/
theorem handleConnect_lookup {α : Type} (c : Client α) (s : Nat) (m : String) :
    (c.handleConnect s).channels.lookup m
      = (c.channels.lookup m).map
          (fun v => if v.packets.isEmpty then v else v.startBundler) := by
  unfold Client.handleConnect
  exact lookup_map_keyed c.channels
    (fun _ v => if v.packets.isEmpty then v else v.startBundler) m

/-- The channel seen under the stringified name right after a handler-less
`subscribe` followed by an `updateChannel` on that name. -/
theorem lookup_subscribe_update {α : Type} (c : Client α) (name : JSVal)
    (o : BundlerOverride) (f : Channel α → Channel α) :
    ((c.subscribe name none o).updateChannel (jsToString name) f).channels.lookup
        (jsToString name)
      = some (f ((c.channels.lookup (jsToString name)).getD
          (Channel.make (jsToString name) (mergeBundler c.options.bundler o)))) := by
  rw [lookup_updateChannel, subscribe_none_lookup]
  simp

/-- `subscribe` preserves the client options. -/
theorem subscribe_options {α : Type} (c : Client α) (name : JSVal)
    (handler : Option Nat) (o : BundlerOverride) :
    (c.subscribe name handler o).options = c.options := by
  conv_lhs => rw [subscribe_only_channels]

/-- `sendOnce` preserves the client options. -/
theorem sendOnce_options {α : Type} (c : Client α) (name : JSVal) (p : α) :
    (c.sendOnce name p).options = c.options := by
  conv_lhs => rw [sendOnce_only_channels]

/-- `sendOnce` on an existing channel just trumps that channel's queue. -/
theorem sendOnce_existing {α : Type} (d : Client α) (name : JSVal) (p : α)
    (h : (d.channels.lookup (jsToString name)).isSome) :
    d.sendOnce name p = d.updateChannel (jsToString name) (fun v => v.sendOnce p) := by
  unfold Client.sendOnce
  rw [subscribe_existing_none _ name _ h]

/-- The channel stored under the stringified name right after `sendOnce`. -/
theorem sendOnce_lookup {α : Type} (c : Client α) (name : JSVal) (p : α) :
    (c.sendOnce name p).channels.lookup (jsToString name)
      = some (((c.channels.lookup (jsToString name)).getD
          (Channel.make (jsToString name)
            (mergeBundler c.options.bundler { every := none }))).sendOnce p) := by
  unfold Client.sendOnce
  exact lookup_subscribe_update c name { every := none } (fun ch => ch.sendOnce p)

/-! ### Concrete fixtures used to instantiate the theorems -/

/-- Modelled from the spec: a minimal concrete codec satisfying the Encoder
contract of §4.4 (concrete codecs are external collaborators).  A non-empty
byte sequence decodes to a frame for channel "x"; an empty one is the
empty-on-malformed result. -/
def natCodec : Encoder Nat :=
  { encode := fun f => f.2,
    decode := fun bs => if bs.isEmpty then none else some (.str "x", bs) }

/-- A concrete client with no channels, used to instantiate theorems. -/
def emptyClient : Client Nat :=
  { options := { hostname := "h", port := 4, adapter := "tcp", encoder := "json",
                 bundler := { every := 16 }, stats := false, socketTimeout := 300 },
    channels := [], fromServer := false, tick := none, socket := some 1,
    sent := [], disconnects := 0, events := [] }

/-- A concrete client holding one channel `"c"` with two buffered packets
and an idle bundler (the state reached while disconnected). -/
def loadedClient : Client Nat :=
  { emptyClient with
    channels := [("c", { name := "c", options := { every := 16 }, packets := [7, 8],
                         handlers := [], timer := false, received := [] })] }

/-- A concrete client holding an empty channel `"x"`, the target of the
concrete codec's decode result. -/
def xClient : Client Nat :=
  { emptyClient with channels := [("x", Channel.make "x" { every := 16 })] }

/-- The constructor options of a client asking for the registered adapter
`"tcp"` and an encoder name `"nope"` that no registry entry matches. -/
def badEncoderOpts : ConstructorOptions :=
  { hostname := none, port := none, adapter := some "tcp", encoder := some "nope",
    bundler := none, stats := none, socketTimeout := none, tick := none, channels := [] }

/-! ### C9 -/

/-- C9: `unsubscribe(name, handler)` on a client with no channel of that
name is a no-op: the client (channel map included) is returned unchanged and
no error is raised. -/
theorem unsubscribe_missing_channel_noop {α : Type} (c : Client α) (name : JSVal)
    (handler : Nat) (h : c.channels.lookup (jsToString name) = none) :
    c.unsubscribe name handler = c := by
  unfold Client.unsubscribe
  simp [h]

/-- Witness for C9 at the concrete channel-less client. -/
theorem unsubscribe_missing_channel_noop_witness :
    emptyClient.channels.lookup (jsToString (.str "x")) = none ∧
      emptyClient.unsubscribe (.str "x") 5 = emptyClient :=
  ⟨rfl, unsubscribe_missing_channel_noop emptyClient (.str "x") 5 rfl⟩

/-! ### C3 -/

/-- C3: after `handleConnect(socket)`, every channel whose pending queue is
non-empty has its bundler (re)started, with its buffered packets intact, so
no channel with buffered-but-unsent data stays stalled after reconnection. -/
theorem handleConnect_restarts_bundlers {α : Type} (c : Client α) (s : Nat)
    (n : String) (ch : Channel α) (h : c.channels.lookup n = some ch)
    (hne : ch.packets ≠ []) :
    ((c.handleConnect s).channels.lookup n).map Channel.timer = some true ∧
      ((c.handleConnect s).channels.lookup n).map Channel.packets = some ch.packets := by
  have hemp : ch.packets.isEmpty = false := by
    cases hp : ch.packets
    · exact absurd hp hne
    · rfl
  rw [handleConnect_lookup, h]
  simp [hemp, Channel.startBundler]

/-- Witness for C3: the disconnected client with two buffered packets on
channel "c" has that bundler rearmed by `handleConnect`, the packets kept. -/
theorem handleConnect_restarts_bundlers_witness :
    (loadedClient.handleDisconnect.channels.lookup "c"
        = some { name := "c", options := { every := 16 }, packets := [7, 8],
                 handlers := [], timer := false, received := [] }) ∧
      ([7, 8] ≠ ([] : List Nat)) ∧
      (((loadedClient.handleDisconnect).handleConnect 2).channels.lookup "c").map
          Channel.timer = some true ∧
      (((loadedClient.handleDisconnect).handleConnect 2).channels.lookup "c").map
          Channel.packets = some [7, 8] :=
  ⟨rfl, by decide,
    (handleConnect_restarts_bundlers loadedClient.handleDisconnect 2 "c" _ rfl (by decide)).1,
    (handleConnect_restarts_bundlers loadedClient.handleDisconnect 2 "c" _ rfl (by decide)).2⟩

/-! ### C4 -/

/-- C4: `subscribe` is idempotent on the channel name: a repeated
handler-less subscribe is the identity; a repeated subscribe with any
handler creates no new channel key and attaches the handler to the already
existing channel; the channel is created only when absent, with the
per-channel options merged over the client's bundler defaults. -/
theorem subscribe_idempotent_same_channel {α : Type} (c : Client α) (name : JSVal)
    (h2 : Option Nat) (o1 o2 : BundlerOverride) :
    ((c.subscribe name none o1).subscribe name none o2 = c.subscribe name none o1) ∧
    (((c.subscribe name none o1).subscribe name h2 o2).channels.map Prod.fst
      = (c.subscribe name none o1).channels.map Prod.fst) ∧
    (∀ h1 hb ch, (c.subscribe name (some h1) o1).channels.lookup (jsToString name) = some ch →
      ((c.subscribe name (some h1) o1).subscribe name (some hb) o2).channels.lookup
          (jsToString name) = some (ch.addHandler hb)) ∧
    (c.channels.lookup (jsToString name) = none →
      (c.subscribe name none o1).channels
        = c.channels ++ [(jsToString name,
            Channel.make (jsToString name) (mergeBundler c.options.bundler o1))]) := by
  have hs : ((c.subscribe name none o1).channels.lookup (jsToString name)).isSome := by
    rw [subscribe_none_lookup]; rfl
  refine ⟨subscribe_existing_none _ name o2 hs, ?_, ?_, ?_⟩
  · cases h2 with
    | none => rw [subscribe_existing_none _ name o2 hs]
    | some hb => rw [subscribe_existing_some _ name hb o2 hs, updateChannel_keys]
  · intro h1 hb ch hch
    have hsome : ((c.subscribe name (some h1) o1).channels.lookup (jsToString name)).isSome := by
      rw [hch]; rfl
    rw [subscribe_existing_some _ name hb o2 hsome, lookup_updateChannel, hch]
    simp
  · intro hnone
    unfold Client.subscribe
    simp [Option.isSome_iff_exists, hnone]

/-- Witness for C4 at the concrete channel-less client. -/
theorem subscribe_idempotent_same_channel_witness :
    ((emptyClient.subscribe (.str "x") none { every := none }).subscribe (.str "x") none
        { every := none } = emptyClient.subscribe (.str "x") none { every := none }) ∧
    (((emptyClient.subscribe (.str "x") none { every := none }).subscribe (.str "x")
          (some 9) { every := none }).channels.map Prod.fst
      = (emptyClient.subscribe (.str "x") none { every := none }).channels.map Prod.fst) ∧
    ((emptyClient.subscribe (.str "x") (some 3) { every := none }).channels.lookup
        (jsToString (.str "x")) = some ((Channel.make "x" { every := 16 }).addHandler 3)) ∧
    (((emptyClient.subscribe (.str "x") (some 3) { every := none }).subscribe (.str "x")
        (some 9) { every := none }).channels.lookup (jsToString (.str "x"))
      = some (((Channel.make "x" { every := 16 }).addHandler 3).addHandler 9)) ∧
    (emptyClient.channels.lookup (jsToString (.str "x")) = none) ∧
    ((emptyClient.subscribe (.str "x") none { every := none }).channels
      = emptyClient.channels ++ [(jsToString (.str "x"),
          Channel.make (jsToString (.str "x"))
            (mergeBundler emptyClient.options.bundler { every := none }))]) :=
  ⟨(subscribe_idempotent_same_channel emptyClient (.str "x") (some 9)
      { every := none } { every := none }).1,
    (subscribe_idempotent_same_channel emptyClient (.str "x") (some 9)
      { every := none } { every := none }).2.1,
    rfl,
    (subscribe_idempotent_same_channel emptyClient (.str "x") (some 9)
      { every := none } { every := none }).2.2.1 3 9
      ((Channel.make "x" { every := 16 }).addHandler 3) rfl,
    rfl,
    (subscribe_idempotent_same_channel emptyClient (.str "x") (some 9)
      { every := none } { every := none }).2.2.2 rfl⟩

/-! ### C2 -/

/-- C2: `sendOnce` trumps: the pending queue of the channel becomes exactly
`[payload]` (length at most 1); a second `sendOnce` before any flush leaves
only the second payload, and the next bundler flush transmits exactly the
single-frame batch `[p2]` and clears the queue. -/
theorem sendOnce_trumps_pending_queue {α : Type} (c : Client α) (name : JSVal)
    (p1 p2 : α) (encs : List (String × Encoder α)) (adps : List String)
    (enc : Encoder α) (ch : Channel α)
    (he : encodersResolve encs c.options.encoder = some enc)
    (ha : c.options.adapter ∈ adps)
    (hch : (c.sendOnce name p1).channels.lookup (jsToString name) = some ch) :
    ch.packets = [p1] ∧
    (((c.sendOnce name p1).sendOnce name p2).channels.lookup (jsToString name)
      = some (ch.sendOnce p2)) ∧
    (ch.sendOnce p2).packets = [p2] ∧
    ((((c.sendOnce name p1).sendOnce name p2).flushChannel encs adps
        (jsToString name)).map Client.sent
      = .ok (((c.sendOnce name p1).sendOnce name p2).sent ++ [(.str ch.name, [p2])])) ∧
    ((((c.sendOnce name p1).sendOnce name p2).flushChannel encs adps
        (jsToString name)).map
          (fun cX => (cX.channels.lookup (jsToString name)).map Channel.packets)
      = .ok (some [])) := by
  rw [sendOnce_lookup] at hch
  obtain rfl := (Option.some.inj hch).symm
  have hstep : (c.sendOnce name p1).sendOnce name p2
      = (c.sendOnce name p1).updateChannel (jsToString name)
          (fun v => v.sendOnce p2) :=
    sendOnce_existing _ name p2 (by rw [sendOnce_lookup]; rfl)
  have hlook2 : ((c.sendOnce name p1).sendOnce name p2).channels.lookup (jsToString name)
      = some ((((c.channels.lookup (jsToString name)).getD
          (Channel.make (jsToString name)
            (mergeBundler c.options.bundler { every := none }))).sendOnce p1).sendOnce p2) := by
    rw [hstep, lookup_updateChannel, sendOnce_lookup]
    simp
  have hopts : ((c.sendOnce name p1).sendOnce name p2).options = c.options := by
    rw [sendOnce_options, sendOnce_options]
  have hflush : ((c.sendOnce name p1).sendOnce name p2).flushChannel encs adps
      (jsToString name)
      = .ok (({ (c.sendOnce name p1).sendOnce name p2 with
            sent := ((c.sendOnce name p1).sendOnce name p2).sent
              ++ [(.str ((c.channels.lookup (jsToString name)).getD
                    (Channel.make (jsToString name)
                      (mergeBundler c.options.bundler { every := none }))).name, [p2])] }
          : Client α).updateChannel (jsToString name)
            (fun v => { v with packets := [], timer := false })) := by
    simp only [Client.flushChannel, hlook2, Client._emit, hopts, he,
      adaptersResolve, if_pos ha]
    simp [Channel.sendOnce, Except.map]
  refine ⟨rfl, hlook2, rfl, ?_, ?_⟩
  · rw [hflush]
    simp [Except.map, Client.updateChannel, Channel.sendOnce]
  · rw [hflush]
    simp only [Except.map, lookup_updateChannel]
    have hch2 : (({ (c.sendOnce name p1).sendOnce name p2 with
        sent := ((c.sendOnce name p1).sendOnce name p2).sent
          ++ [(.str ((c.channels.lookup (jsToString name)).getD
                (Channel.make (jsToString name)
                  (mergeBundler c.options.bundler { every := none }))).name, [p2])] }
        : Client α).channels.lookup (jsToString name))
        = some ((((c.channels.lookup (jsToString name)).getD
            (Channel.make (jsToString name)
              (mergeBundler c.options.bundler { every := none }))).sendOnce p1).sendOnce p2) :=
      hlook2
    rw [hch2]
    simp

/-- Witness for C2: two `sendOnce` calls on channel "q" of the concrete
client, flushed with the concrete codec registry. -/
theorem sendOnce_trumps_pending_queue_witness :
    (encodersResolve [("json", natCodec)] emptyClient.options.encoder = some natCodec) ∧
    (emptyClient.options.adapter ∈ initialAdapters) ∧
    ((emptyClient.sendOnce (.str "q") 1).channels.lookup (jsToString (.str "q"))
      = some ((Channel.make "q" { every := 16 }).sendOnce 1)) ∧
    ((Channel.make "q" { every := 16 }).sendOnce 1).packets = [1] ∧
    (((emptyClient.sendOnce (.str "q") 1).sendOnce (.str "q") 2).channels.lookup
        (jsToString (.str "q"))
      = some (((Channel.make "q" { every := 16 }).sendOnce 1).sendOnce 2)) ∧
    ((((emptyClient.sendOnce (.str "q") 1).sendOnce (.str "q") 2).flushChannel
        [("json", natCodec)] initialAdapters (jsToString (.str "q"))).map Client.sent
      = .ok (((emptyClient.sendOnce (.str "q") 1).sendOnce (.str "q") 2).sent
          ++ [(.str ((Channel.make "q" { every := 16 }).sendOnce 1).name, [2])])) ∧
    ((((emptyClient.sendOnce (.str "q") 1).sendOnce (.str "q") 2).flushChannel
        [("json", natCodec)] initialAdapters (jsToString (.str "q"))).map
          (fun cX => (cX.channels.lookup (jsToString (.str "q"))).map Channel.packets)
      = .ok (some [])) := by
  have h := sendOnce_trumps_pending_queue emptyClient (.str "q") 1 2
    [("json", natCodec)] initialAdapters natCodec
    ((Channel.make "q" { every := 16 }).sendOnce 1) rfl (by decide) rfl
  exact ⟨rfl, by decide, rfl, h.1, h.2.1, h.2.2.2.1, h.2.2.2.2⟩

/-! ### C5 -/

/-- C5: `sendNow(name, payload)` bypasses the pending queue and the bundler:
it transmits the single-packet batch `[payload]` immediately, and the whole
channel map — in particular the named channel's pending queue — is exactly
what it was before the call. -/
theorem sendNow_bypasses_pending_queue {α : Type} (c : Client α) (name : JSVal)
    (p : α) (encs : List (String × Encoder α)) (adps : List String)
    (enc : Encoder α) (ch : Channel α)
    (he : encodersResolve encs c.options.encoder = some enc)
    (ha : c.options.adapter ∈ adps)
    (hch : c.channels.lookup (jsToString name) = some ch) :
    c.sendNow encs adps name p = .ok { c with sent := c.sent ++ [(name, [p])] } := by
  unfold Client.sendNow
  rw [subscribe_existing_none _ name _ (by rw [hch]; rfl)]
  simp only [Client._emit, he, adaptersResolve, if_pos ha]

/-- Witness for C5: `sendNow` on the concrete client with the buffered
channel "c" leaves its two queued packets untouched. -/
theorem sendNow_bypasses_pending_queue_witness :
    (encodersResolve [("json", natCodec)] loadedClient.options.encoder = some natCodec) ∧
    (loadedClient.options.adapter ∈ initialAdapters) ∧
    (loadedClient.channels.lookup (jsToString (.str "c"))
      = some { name := "c", options := { every := 16 }, packets := [7, 8],
               handlers := [], timer := false, received := [] }) ∧
    (loadedClient.sendNow [("json", natCodec)] initialAdapters (.str "c") 9
      = .ok { loadedClient with sent := loadedClient.sent ++ [(.str "c", [9])] }) :=
  ⟨rfl, by decide, rfl,
    sendNow_bypasses_pending_queue loadedClient (.str "c") 9 [("json", natCodec)]
      initialAdapters natCodec _ rfl (by decide) rfl⟩

/-! ### C6 -/

/-- C6: `handleRequest(bytes)` decodes with the configured encoder and: on a
falsy/empty decode result the client is returned unchanged; on a decoded
`(channelName, packets)` tuple whose channel is unknown the client is
returned unchanged; on a known channel the packets are forwarded to exactly
that channel's dispatch; in all three cases the call returns normally
(nothing is thrown) and transmits nothing. -/
theorem handleRequest_routes_or_drops {α : Type} (c : Client α) (evt : List Nat)
    (encs : List (String × Encoder α)) (enc : Encoder α) (nm : JSVal)
    (pkts : List α) (ch : Channel α)
    (he : encodersResolve encs c.options.encoder = some enc) :
    (enc.decode evt = none → c.handleRequest encs evt = .ok c) ∧
    (enc.decode evt = some (nm, pkts) →
      c.channels.lookup (jsToString nm) = none →
      c.handleRequest encs evt = .ok c) ∧
    (enc.decode evt = some (nm, pkts) →
      c.channels.lookup (jsToString nm) = some ch →
      c.handleRequest encs evt
        = .ok (c.updateChannel (jsToString nm) (fun v => v.handleData pkts)) ∧
      ((c.updateChannel (jsToString nm) (fun v => v.handleData pkts)).channels.lookup
          (jsToString nm) = some (ch.handleData pkts)) ∧
      ((c.updateChannel (jsToString nm) (fun v => v.handleData pkts)).sent = c.sent)) := by
  refine ⟨?_, ?_, ?_⟩
  · intro hd
    simp [Client.handleRequest, he, hd]
  · intro hd hl
    simp [Client.handleRequest, he, hd, hl]
  · intro hd hl
    refine ⟨?_, ?_, rfl⟩
    · simp [Client.handleRequest, he, hd, hl]
    · rw [lookup_updateChannel, hl]
      simp

/-- Witness for C6: with the concrete codec, an empty byte string is
dropped and `[5]` is routed to channel "x"'s dispatch. -/
theorem handleRequest_routes_or_drops_witness :
    (encodersResolve [("json", natCodec)] xClient.options.encoder = some natCodec) ∧
    (natCodec.decode [] = none) ∧
    (xClient.handleRequest [("json", natCodec)] [] = .ok xClient) ∧
    (natCodec.decode [5] = some (.str "x", [5])) ∧
    (xClient.channels.lookup (jsToString (.str "x"))
      = some (Channel.make "x" { every := 16 })) ∧
    (xClient.handleRequest [("json", natCodec)] [5]
      = .ok (xClient.updateChannel (jsToString (.str "x"))
          (fun v => v.handleData [5]))) :=
  ⟨rfl, rfl,
    (handleRequest_routes_or_drops xClient [] [("json", natCodec)] natCodec
      (.str "x") [] (Channel.make "x" { every := 16 }) rfl).1 rfl,
    rfl, rfl,
    ((handleRequest_routes_or_drops xClient [5] [("json", natCodec)] natCodec
      (.str "x") [5] (Channel.make "x" { every := 16 }) rfl).2.2 rfl rfl).1⟩

/-! ### C8 -/

/-- C8: `destroy()` invokes the adapter's disconnect once, clears the socket
reference and resets every channel's bundler, after which no channel's
timer is armed and a bundler expiry on any channel name is a no-op (nothing
fires, nothing is transmitted). -/
theorem destroy_clears_socket_and_timers {α : Type} (c : Client α)
    (encs : List (String × Encoder α)) (adps : List String) (n : String)
    (ha : c.options.adapter ∈ adps) :
    (c.destroy adps = .ok { c with
        disconnects := c.disconnects + 1
        socket := none
        channels := c.channels.map fun p => (p.1, p.2.resetBundler) }) ∧
    (((c.channels.map fun p => (p.1, p.2.resetBundler)).all fun p => !p.2.timer) = true) ∧
    (({ c with
          disconnects := c.disconnects + 1
          socket := none
          channels := c.channels.map fun p => (p.1, p.2.resetBundler) }
        : Client α).flushChannel encs adps n
      = .ok { c with
          disconnects := c.disconnects + 1
          socket := none
          channels := c.channels.map fun p => (p.1, p.2.resetBundler) }) := by
  have hlk : ({ c with
        disconnects := c.disconnects + 1
        socket := none
        channels := c.channels.map fun p => (p.1, p.2.resetBundler) }
      : Client α).channels.lookup n
      = (c.channels.lookup n).map (fun v => v.resetBundler) :=
    lookup_map_keyed c.channels (fun _ v => v.resetBundler) n
  refine ⟨?_, ?_, ?_⟩
  · simp [Client.destroy, adaptersResolve, if_pos ha]
  · simp [List.all_eq_true, Channel.resetBundler]
  · cases hl : c.channels.lookup n with
    | none =>
      rw [hl, Option.map_none'] at hlk
      simp only [Client.flushChannel, hlk]
    | some ch =>
      rw [hl, Option.map_some'] at hlk
      simp only [Client.flushChannel, hlk]
      simp [Channel.resetBundler]

/-- Witness for C8 at the concrete client holding a buffered channel. -/
theorem destroy_clears_socket_and_timers_witness :
    (loadedClient.options.adapter ∈ initialAdapters) ∧
    (loadedClient.destroy initialAdapters
      = .ok { loadedClient with
          disconnects := loadedClient.disconnects + 1
          socket := none
          channels := loadedClient.channels.map fun p => (p.1, p.2.resetBundler) }) ∧
    (((loadedClient.channels.map fun p => (p.1, p.2.resetBundler)).all
        fun p => !p.2.timer) = true) ∧
    (({ loadedClient with
          disconnects := loadedClient.disconnects + 1
          socket := none
          channels := loadedClient.channels.map fun p => (p.1, p.2.resetBundler) }
        : Client Nat).flushChannel [("json", natCodec)] initialAdapters "c"
      = .ok { loadedClient with
          disconnects := loadedClient.disconnects + 1
          socket := none
          channels := loadedClient.channels.map fun p => (p.1, p.2.resetBundler) }) :=
  ⟨by decide,
    (destroy_clears_socket_and_timers loadedClient [("json", natCodec)]
      initialAdapters "c" (by decide)).1,
    (destroy_clears_socket_and_timers loadedClient [("json", natCodec)]
      initialAdapters "c" (by decide)).2.1,
    (destroy_clears_socket_and_timers loadedClient [("json", natCodec)]
      initialAdapters "c" (by decide)).2.2⟩

/-! ### C10 -/

/-- `subscribe` sees the channel name only through its string form. -/
theorem subscribe_name_coerce {α : Type} (c : Client α) (n1 n2 : JSVal)
    (handler : Option Nat) (o : BundlerOverride)
    (hs : jsToString n1 = jsToString n2) :
    c.subscribe n1 handler o = c.subscribe n2 handler o := by
  unfold Client.subscribe
  rw [hs]

/-- C10: any two name values with the same string form identify the same
channel: `subscribe`, `unsubscribe`, `send` and `sendOnce` behave
identically on them, and `sendNow` leaves the identical channel map (its
frame records the uncoerced name, but it queues nothing). -/
theorem name_coercion_shares_channel {α : Type} (c : Client α) (n1 n2 : JSVal)
    (handler : Option Nat) (hb : Nat) (o : BundlerOverride) (p : α)
    (encs : List (String × Encoder α)) (adps : List String)
    (hs : jsToString n1 = jsToString n2) :
    c.subscribe n1 handler o = c.subscribe n2 handler o ∧
    c.unsubscribe n1 hb = c.unsubscribe n2 hb ∧
    c.send n1 p = c.send n2 p ∧
    c.sendOnce n1 p = c.sendOnce n2 p ∧
    (c.sendNow encs adps n1 p).map Client.channels
      = (c.sendNow encs adps n2 p).map Client.channels := by
  refine ⟨subscribe_name_coerce c n1 n2 handler o hs, ?_, ?_, ?_, ?_⟩
  · unfold Client.unsubscribe
    rw [hs]
  · unfold Client.send
    rw [subscribe_name_coerce c n1 n2 none _ hs, hs]
  · unfold Client.sendOnce
    rw [subscribe_name_coerce c n1 n2 none _ hs, hs]
  · unfold Client.sendNow
    rw [subscribe_name_coerce c n1 n2 none _ hs]
    cases he : encodersResolve encs (c.subscribe n2 none { every := none }).options.encoder with
    | none => simp [Client._emit, he]
    | some enc =>
      cases hA : adaptersResolve adps (c.subscribe n2 none { every := none }).options.adapter with
      | none => simp [Client._emit, he, hA]
      | some u => simp [Client._emit, he, hA, Except.map]

/-- Witness for C10: the number `1` and the string `"1"` identify the same
channel on the concrete client. -/
theorem name_coercion_shares_channel_witness :
    (jsToString (.num 1) = jsToString (.str "1")) ∧
    (emptyClient.subscribe (.num 1) (some 3) { every := none }
      = emptyClient.subscribe (.str "1") (some 3) { every := none }) ∧
    (emptyClient.unsubscribe (.num 1) 4 = emptyClient.unsubscribe (.str "1") 4) ∧
    (emptyClient.send (.num 1) 5 = emptyClient.send (.str "1") 5) ∧
    (emptyClient.sendOnce (.num 1) 5 = emptyClient.sendOnce (.str "1") 5) ∧
    ((emptyClient.sendNow [("json", natCodec)] initialAdapters (.num 1) 5).map
        Client.channels
      = (emptyClient.sendNow [("json", natCodec)] initialAdapters (.str "1") 5).map
          Client.channels) :=
  ⟨by decide,
    (name_coercion_shares_channel emptyClient (.num 1) (.str "1") (some 3) 4
      { every := none } 5 [("json", natCodec)] initialAdapters (by decide)).1,
    (name_coercion_shares_channel emptyClient (.num 1) (.str "1") (some 3) 4
      { every := none } 5 [("json", natCodec)] initialAdapters (by decide)).2.1,
    (name_coercion_shares_channel emptyClient (.num 1) (.str "1") (some 3) 4
      { every := none } 5 [("json", natCodec)] initialAdapters (by decide)).2.2.1,
    (name_coercion_shares_channel emptyClient (.num 1) (.str "1") (some 3) 4
      { every := none } 5 [("json", natCodec)] initialAdapters (by decide)).2.2.2.1,
    (name_coercion_shares_channel emptyClient (.num 1) (.str "1") (some 3) 4
      { every := none } 5 [("json", natCodec)] initialAdapters (by decide)).2.2.2.2⟩

/-! ### C1 and C7 -/

/-- `subscribe` preserves the socket reference. -/
theorem subscribe_socket {α : Type} (c : Client α) (name : JSVal)
    (handler : Option Nat) (o : BundlerOverride) :
    (c.subscribe name handler o).socket = c.socket := by
  conv_lhs => rw [subscribe_only_channels]

/-- Populating channels at construction preserves the socket reference. -/
theorem foldl_subscribe_socket {α : Type} (l : List (String × Nat)) (c : Client α) :
    (l.foldl (fun d p => d.subscribe (.str p.1) (some p.2) { every := none }) c).socket
      = c.socket := by
  induction l generalizing c with
  | nil => rfl
  | cons hd tl ih =>
    rw [List.foldl_cons, ih, subscribe_socket]

/-- Populating channels at construction preserves the client options. -/
theorem foldl_subscribe_options {α : Type} (l : List (String × Nat)) (c : Client α) :
    (l.foldl (fun d p => d.subscribe (.str p.1) (some p.2) { every := none }) c).options
      = c.options := by
  induction l generalizing c with
  | nil => rfl
  | cons hd tl ih =>
    rw [List.foldl_cons, ih, subscribe_options]

/-- The client obtained by constructing with a registered adapter ("tcp")
and the unregistered encoder name "nope". -/
def badEncClient : Client Nat :=
  (Client.construct initialAdapters badEncoderOpts none
    : Except String (Client Nat)).toOption.getD emptyClient

/-- Counterexample to C1: constructing a client whose encoder name "nope"
resolves to no registered codec succeeds — nothing is raised at
construction — and the failure only surfaces at the first use of the
encoder (`handleRequest` throws a TypeError there). -/
theorem construct_ignores_unresolved_encoder_cex :
    ((Client.construct initialAdapters badEncoderOpts none
      : Except String (Client Nat)).isOk = true) ∧
    ((Client.construct initialAdapters badEncoderOpts none
      : Except String (Client Nat)).map
        (fun c => (c.handleRequest [("json", natCodec)] [5]).isOk) = .ok false) :=
  ⟨rfl, rfl⟩

/-- C1 (amended): construction fails exactly when the effective adapter
name does not resolve (a TypeError out of `use`/`createSocket`); the
encoder name is never inspected at construction, and an unresolvable
encoder surfaces only at first use — `sendNow` and `handleRequest` then
throw. -/
theorem construct_fails_iff_adapter_unresolved {α : Type} (adps : List String)
    (o : ConstructorOptions) (s : Option Nat) (c : Client α)
    (encs : List (String × Encoder α)) (adps2 : List String) (name : JSVal)
    (p : α) (evt : List Nat) :
    ((Client.construct adps o s : Except String (Client α)).isOk
      = (adaptersResolve adps (orStr o.adapter defaults.adapter)).isSome) ∧
    (Client.construct adps o s = .ok c →
      encodersResolve encs c.options.encoder = none →
      (c.sendNow encs adps2 name p).isOk = false ∧
        (c.handleRequest encs evt).isOk = false) := by
  constructor
  · simp only [Client.construct, Client.use, foldl_subscribe_socket]
    rw [Client.createSocket, foldl_subscribe_options]
    cases adaptersResolve adps (orStr o.adapter defaults.adapter) <;>
      simp [Except.map, Except.isOk, Except.toBool]
  · intro _ hne
    constructor
    · unfold Client.sendNow
      simp [Client._emit, subscribe_options, hne, Except.isOk, Except.toBool]
    · simp [Client.handleRequest, hne, Except.isOk, Except.toBool]

/-- Witness for C1's amended theorem at the concrete bad-encoder options. -/
theorem construct_fails_iff_adapter_unresolved_witness :
    ((Client.construct initialAdapters badEncoderOpts none
        : Except String (Client Nat)).isOk
      = (adaptersResolve initialAdapters
          (orStr badEncoderOpts.adapter defaults.adapter)).isSome) ∧
    ((Client.construct initialAdapters badEncoderOpts none
      : Except String (Client Nat)) = .ok badEncClient) ∧
    (encodersResolve [("json", natCodec)] badEncClient.options.encoder = none) ∧
    ((badEncClient.sendNow [("json", natCodec)] initialAdapters (.str "x") 0).isOk
      = false) ∧
    ((badEncClient.handleRequest [("json", natCodec)] [5]).isOk = false) :=
  ⟨(construct_fails_iff_adapter_unresolved initialAdapters badEncoderOpts none
      badEncClient [("json", natCodec)] initialAdapters (.str "x") 0 [5]).1,
    rfl, rfl,
    ((construct_fails_iff_adapter_unresolved initialAdapters badEncoderOpts none
      badEncClient [("json", natCodec)] initialAdapters (.str "x") 0 [5]).2 rfl rfl).1,
    ((construct_fails_iff_adapter_unresolved initialAdapters badEncoderOpts none
      badEncClient [("json", natCodec)] initialAdapters (.str "x") 0 [5]).2 rfl rfl).2⟩

/-- Counterexample to C7: a client reachable through the constructor (with
the unresolved encoder name "nope") on which `sendNow` throws a TypeError
instead of returning the client. -/
theorem sendNow_throws_on_unresolved_encoder_cex :
    ((Client.construct initialAdapters badEncoderOpts none
      : Except String (Client Nat)) = .ok badEncClient) ∧
    ((badEncClient.sendNow [("json", natCodec)] initialAdapters (.str "x") 7).isOk
      = false) :=
  ⟨rfl, rfl⟩

/-- C7 (amended): `send` and `sendOnce` always return the client (they
change nothing but the channel map and cannot throw); `sendNow` returns
the client exactly when the configured encoder and adapter names both
resolve, and throws a TypeError otherwise. -/
theorem send_family_returns_client {α : Type} (c : Client α) (name : JSVal)
    (p : α) (encs : List (String × Encoder α)) (adps : List String) :
    (c.send name p = { c with channels := (c.send name p).channels }) ∧
    (c.sendOnce name p = { c with channels := (c.sendOnce name p).channels }) ∧
    ((c.sendNow encs adps name p).isOk
      = ((encodersResolve encs c.options.encoder).isSome
          && (adaptersResolve adps c.options.adapter).isSome)) := by
  refine ⟨send_only_channels c name p, sendOnce_only_channels c name p, ?_⟩
  simp only [Client.sendNow, Client._emit]
  rw [subscribe_options]
  cases he : encodersResolve encs c.options.encoder with
  | none => simp [Except.isOk, Except.toBool]
  | some enc =>
    cases hA : adaptersResolve adps c.options.adapter with
    | none => simp [Except.isOk, Except.toBool]
    | some u => simp [Except.isOk, Except.toBool]

end Kalm
